import Mathlib

/-!
Verification of the orchestration logic of the visual-regression CI action.

The repository ships three pipeline variants:
* the fused pipeline (src/index.ts, function run), which captures, compares,
  uploads to a CI branch and commits screenshots in one job;
* the ImgBB compare pipeline (runCompare / uploadToImgBB variant);
* the R2 compare pipeline (runCompare / uploadToR2 variant).

External collaborators (odiff, ImageMagick, the GitHub API, the storage
backends, sha256) are modelled as oracle parameters; every piece of decision
logic of the repository itself (crop arithmetic, exit-code branching,
classification loops, dedup maps, error propagation) is translated directly
from the TypeScript source.
-/

namespace VRA

/-- A bounding box parsed from the ImageMagick trim output
(groups of the regex: width, height, x offset, y offset). -/
structure Bbox where
  width : Int
  height : Int
  x : Int
  y : Int
deriving Repr, DecidableEq

/-- The vertical crop window finally passed to the convert crop call:
full image width, height finalHeight, offset finalY. -/
structure CropRegion where
  finalY : Int
  finalHeight : Int
deriving Repr, DecidableEq

/-- Crop computation of the fused pipeline (src/index.ts lines 221-231):
yPad = max(0, y - cropPadding);
heightWithPadding = max(height + cropPadding*2, cropMinHeight);
maxY = imgHeight - heightWithPadding;
finalY = min(yPad, max(0, maxY));
finalHeight = min(heightWithPadding, imgHeight - finalY). -/
def cropRegionFused (cropPadding cropMinHeight imgHeight : Int) (b : Bbox) :
    CropRegion :=
  let yPad := max 0 (b.y - cropPadding)
  let heightWithPadding := max (b.height + cropPadding * 2) cropMinHeight
  let maxY := imgHeight - heightWithPadding
  let finalY := min yPad (max 0 maxY)
  let finalHeight := min heightWithPadding (imgHeight - finalY)
  ⟨finalY, finalHeight⟩

/-- Crop computation of both compare pipelines (ImgBB variant lines 292-293,
R2 variant lines 257-258):
finalHeight = max(cropHeight + cropPadding*2, cropMinHeight);
finalY = max(0, cropY - cropPadding).
No clamp against the image height is applied. -/
def cropRegionCompare (cropPadding cropMinHeight : Int) (b : Bbox) :
    CropRegion :=
  let finalHeight := max (b.height + cropPadding * 2) cropMinHeight
  let finalY := max 0 (b.y - cropPadding)
  ⟨finalY, finalHeight⟩

lemma cropRegionFused_finalY_nonneg (p m h : Int) (b : Bbox) :
    0 ≤ (cropRegionFused p m h b).finalY := by
  simp only [cropRegionFused, le_min_iff, le_max_iff]
  omega

lemma cropRegionFused_within_bounds (p m h : Int) (b : Bbox) :
    (cropRegionFused p m h b).finalY + (cropRegionFused p m h b).finalHeight
      ≤ h := by
  simp only [cropRegionFused]
  omega

lemma cropRegionFused_minHeight (p m h : Int) (b : Bbox) (hmh : m ≤ h) :
    m ≤ (cropRegionFused p m h b).finalHeight := by
  simp only [cropRegionFused]
  omega

lemma cropRegionCompare_minHeight (p m : Int) (b : Bbox) :
    m ≤ (cropRegionCompare p m b).finalHeight := by
  simp only [cropRegionCompare]
  omega

lemma cropRegionCompare_finalY_nonneg (p m : Int) (b : Bbox) :
    0 ≤ (cropRegionCompare p m b).finalY := by
  simp only [cropRegionCompare]
  omega

/-! ### String helpers

The TypeScript source uses String.prototype.includes and
String.prototype.endsWith; both are modelled on character lists. -/

/-- Substring test on character lists: true when needle occurs
contiguously inside the list (JS includes). -/
def containsSub (needle : List Char) : List Char → Bool
  | [] => needle.isEmpty
  | c :: rest => needle.isPrefixOf (c :: rest) || containsSub needle rest

/-- JS s.includes(sub). -/
def strIncludes (s sub : String) : Bool := containsSub sub.toList s.toList

/-- JS s.endsWith(post). -/
def strEndsWith (s post : String) : Bool := post.toList.isSuffixOf s.toList

/-- path.parse(file).name for a .png file: the basename without the
final four characters (".png"); other names are returned unchanged. -/
def pngStem (file : String) : String :=
  if strEndsWith file ".png" then
    String.mk (file.toList.take (file.toList.length - 4))
  else file

/-! ### Fused pipeline comparison loop (src/index.ts lines 139-254) -/

/-- Loop guard of the fused pipeline (src/index.ts line 141): a candidate
file is processed only when it ends in .png and does not contain the
substring diff; otherwise the iteration continues without comparing. -/
def fusedShouldProcess (file : String) : Bool :=
  strEndsWith file ".png" && !(strIncludes file "diff")

/-- State threaded through the fused comparison loop: the aggregate
hasDiffs flag, the stems for which a combined composite was created and
the crop regions passed to convert. -/
structure FusedCompareState where
  hasDiffs : Bool
  combined : List String
  crops : List CropRegion
deriving Repr, DecidableEq

/-- One iteration of the fused comparison loop (src/index.ts lines 140-254):
skip non-png and diff-named files; skip files with no base counterpart
(logged as new); run odiff; on exit code 22 set hasDiffs, parse the trim
bounding box and, only when the parse matches, compute the padded crop and
produce the combined composite. -/
def fusedCompareStep (cropPadding cropMinHeight : Int)
    (imgHeight : String → Int) (baseNames : List String)
    (exitCode : String → Nat) (bbox : String → Option Bbox)
    (st : FusedCompareState) (file : String) : FusedCompareState :=
  if !(strEndsWith file ".png") || strIncludes file "diff" then st
  else if !(baseNames.contains file) then st
  else if exitCode file == 22 then
    match bbox file with
    | some b =>
        { hasDiffs := true,
          combined := st.combined ++ [pngStem file],
          crops := st.crops ++
            [cropRegionFused cropPadding cropMinHeight (imgHeight file) b] }
    | none => { st with hasDiffs := true }
  else st

/-- The fused comparison loop over the candidate directory listing. -/
def fusedComparePhase (cropPadding cropMinHeight : Int)
    (imgHeight : String → Int) (baseNames : List String)
    (exitCode : String → Nat) (bbox : String → Option Bbox)
    (files : List String) : FusedCompareState :=
  files.foldl
    (fusedCompareStep cropPadding cropMinHeight imgHeight baseNames
      exitCode bbox)
    ⟨false, [], []⟩

lemma fusedCompareStep_skip (p m : Int) (ih : String → Int)
    (bn : List String) (ec : String → Nat) (bb : String → Option Bbox)
    (st : FusedCompareState) (file : String)
    (h : fusedShouldProcess file = false) :
    fusedCompareStep p m ih bn ec bb st file = st := by
  simp only [fusedShouldProcess, Bool.and_eq_false_iff] at h
  simp only [fusedCompareStep]
  rcases h with h | h
  · have h2 : strEndsWith file ".png" = false := by
      revert h
      cases strEndsWith file ".png" <;> simp
    rw [h2]
    simp
  · have h2 : strIncludes file "diff" = true := by
      revert h
      cases strIncludes file "diff" <;> simp
    rw [h2]
    simp

lemma fusedComparePhase_skip_middle (p m : Int) (ih : String → Int)
    (bn : List String) (ec : String → Nat) (bb : String → Option Bbox)
    (l₁ l₂ : List String) (file : String)
    (h : fusedShouldProcess file = false) :
    fusedComparePhase p m ih bn ec bb (l₁ ++ file :: l₂)
      = fusedComparePhase p m ih bn ec bb (l₁ ++ l₂) := by
  simp only [fusedComparePhase, List.foldl_append, List.foldl_cons]
  rw [fusedCompareStep_skip p m ih bn ec bb _ file h]

/-! ### Classification of screenshot names (compare pipelines)

The R2 compare variant iterates the candidate (pr) listing - a name with no
base counterpart is new, a shared name enters the odiff branch (exit code 22
means changed, anything else gets no changed handling, logged here as
identical) - and then iterates the base listing, marking names missing from
the candidate set as deleted (part_002 lines 171-338).  The ImgBB variant
has the same candidate loop but no base loop at all (part_001 lines
216-324). -/

/-- The four classes the specification names for a screenshot. -/
inductive ScreenshotClass
  | identical
  | changed
  | new
  | deleted
deriving Repr, DecidableEq

/-- Classification of one name by the R2 compare loops, read off the branch
structure of part_002 lines 171-338.  identical denotes the shared names for
which the odiff exit code is not 22, so no changed handling runs. -/
def classifyR2 (exitCode : String → Nat) (basePngs prPngs : List String)
    (name : String) : Option ScreenshotClass :=
  if prPngs.contains name then
    if !(basePngs.contains name) then some .new
    else if exitCode name == 22 then some .changed
    else some .identical
  else if basePngs.contains name then some .deleted
  else none

/-- The member names of each class under the R2 compare loops; each filter
condition is the corresponding loop guard of part_002. -/
def classNamesR2 (exitCode : String → Nat) (basePngs prPngs : List String) :
    ScreenshotClass → List String
  | .new => prPngs.filter (fun f => !(basePngs.contains f))
  | .changed => prPngs.filter (fun f => basePngs.contains f && exitCode f == 22)
  | .identical =>
      prPngs.filter (fun f => basePngs.contains f && !(exitCode f == 22))
  | .deleted => basePngs.filter (fun f => !(prPngs.contains f))

/-- Classification of one name by the ImgBB compare loop (part_001 lines
216-324): same candidate loop, but the variant has no loop over the base
listing, so a name present only in the base set is never visited. -/
def classifyImgBB (exitCode : String → Nat) (basePngs prPngs : List String)
    (name : String) : Option ScreenshotClass :=
  if prPngs.contains name then
    if !(basePngs.contains name) then some .new
    else if exitCode name == 22 then some .changed
    else some .identical
  else none

/-- The member names of each class under the ImgBB compare loop: no name is
ever put in the deleted class. -/
def classNamesImgBB (exitCode : String → Nat) (basePngs prPngs : List String) :
    ScreenshotClass → List String
  | .new => prPngs.filter (fun f => !(basePngs.contains f))
  | .changed => prPngs.filter (fun f => basePngs.contains f && exitCode f == 22)
  | .identical =>
      prPngs.filter (fun f => basePngs.contains f && !(exitCode f == 22))
  | .deleted => []

lemma mem_classNamesR2_iff (ec : String → Nat) (basePngs prPngs : List String)
    (name : String) (c : ScreenshotClass) :
    name ∈ classNamesR2 ec basePngs prPngs c ↔
      classifyR2 ec basePngs prPngs name = some c := by
  by_cases hp : name ∈ prPngs <;> by_cases hb : name ∈ basePngs <;>
    by_cases he : ec name = 22 <;> cases c <;>
      simp [classNamesR2, classifyR2, List.mem_filter, hp, hb, he,
        List.elem_eq_mem]

lemma classifyR2_isSome_of_mem_union (ec : String → Nat)
    (basePngs prPngs : List String) (name : String)
    (h : name ∈ basePngs ∨ name ∈ prPngs) :
    ∃ c, classifyR2 ec basePngs prPngs name = some c := by
  by_cases hp : name ∈ prPngs <;> by_cases hb : name ∈ basePngs <;>
    by_cases he : ec name = 22 <;>
      simp_all [classifyR2, List.elem_eq_mem]

/-! ### Compare pipelines: per-file processing and upload queue -/

/-- One image queued for upload: file path, content-hash filename (hash
plus extension, used as the storage key) and the URL the publisher fills
in; isNew and isDeleted tag the R2 variant's extra sections. -/
structure UploadEntry where
  path : String
  hash : String
  url : String
  isNew : Bool := false
  isDeleted : Bool := false
deriving Repr, DecidableEq

/-- External collaborators of the compare pipelines as oracles: odiff exit
code per shared name, parsed trim bounding box per changed name, identify
image height, file bytes by path and the sha256 hex digest of crypto. -/
structure CompareOracle where
  exitCode : String → Nat
  bbox : String → Option Bbox
  imgHeight : String → Int
  content : String → List Nat
  hashHex : List Nat → String

/-- path.join of the candidate artifact directory and a file name. -/
def prPath (file : String) : String := "screenshots-pr/" ++ file

/-- path.join of the base artifact directory and a file name. -/
def basePath (file : String) : String := "screenshots-base/" ++ file

/-- Composite output path of the R2 variant (part_002 lines 281-299):
stem-animated.gif in animated mode, stem-combined.png otherwise. -/
def outputPathR2 (animatedGif : Bool) (stem : String) : String :=
  "screenshots-diffs/" ++
    (if animatedGif then stem ++ "-animated.gif" else stem ++ "-combined.png")

/-- The extension appended to the content hash to form the storage key. -/
def outputExtR2 (animatedGif : Bool) : String :=
  if animatedGif then ".gif" else ".png"

/-- State threaded through a compare loop: the aggregate hasDiffs flag,
crop geometries handed to convert, the imagesToUpload queue and the
deletedScreenshots list of the R2 variant. -/
structure CompareState where
  hasDiffs : Bool
  crops : List CropRegion
  entries : List UploadEntry
  deletedScreenshots : List String
deriving Repr, DecidableEq

/-- One iteration of the R2 candidate loop (part_002 lines 171-317): a name
missing from the base listing is new (flag set, the candidate file itself
queued); a shared name runs odiff, and exit code 22 sets the flag, then only
a successful bounding-box parse yields a crop and a queued composite. -/
def compareStepR2 (cropPadding cropMinHeight : Int) (animatedGif : Bool)
    (o : CompareOracle) (basePngs : List String)
    (st : CompareState) (file : String) : CompareState :=
  if !(basePngs.contains file) then
    { st with
      hasDiffs := true,
      entries := st.entries ++
        [⟨prPath file, o.hashHex (o.content (prPath file)) ++ ".png", "",
          true, false⟩] }
  else if o.exitCode file == 22 then
    match o.bbox file with
    | some b =>
        let outPath := outputPathR2 animatedGif (pngStem file)
        { st with
          hasDiffs := true,
          crops := st.crops ++ [cropRegionCompare cropPadding cropMinHeight b],
          entries := st.entries ++
            [⟨outPath, o.hashHex (o.content outPath) ++ outputExtR2 animatedGif,
              "", false, false⟩] }
    | none => { st with hasDiffs := true }
  else st

/-- One iteration of the R2 deleted loop (part_002 lines 320-338): a base
name missing from the candidate listing sets the flag, is recorded in
deletedScreenshots and its base image is queued for upload. -/
def deletedStepR2 (o : CompareOracle) (prPngs : List String)
    (st : CompareState) (file : String) : CompareState :=
  if !(prPngs.contains file) then
    { st with
      hasDiffs := true,
      deletedScreenshots := st.deletedScreenshots ++ [file],
      entries := st.entries ++
        [⟨basePath file, o.hashHex (o.content (basePath file)) ++ ".png", "",
          false, true⟩] }
  else st

/-- The full comparison phase of the R2 variant: the candidate loop followed
by the deleted loop, starting from the empty state. -/
def comparePhaseR2 (cropPadding cropMinHeight : Int) (animatedGif : Bool)
    (o : CompareOracle) (basePngs prPngs : List String) : CompareState :=
  basePngs.foldl (deletedStepR2 o prPngs)
    (prPngs.foldl (compareStepR2 cropPadding cropMinHeight animatedGif o
      basePngs) ⟨false, [], [], []⟩)

/-- One iteration of the ImgBB candidate loop (part_001 lines 216-324): a
name missing from the base listing is only logged (no flag, no upload); a
shared name runs odiff exactly as in the R2 variant, always producing a
side-by-side combined png. -/
def compareStepImgBB (cropPadding cropMinHeight : Int) (o : CompareOracle)
    (basePngs : List String) (st : CompareState) (file : String) :
    CompareState :=
  if !(basePngs.contains file) then st
  else if o.exitCode file == 22 then
    match o.bbox file with
    | some b =>
        let outPath := "screenshots-diffs/" ++ pngStem file ++ "-combined.png"
        { st with
          hasDiffs := true,
          crops := st.crops ++ [cropRegionCompare cropPadding cropMinHeight b],
          entries := st.entries ++
            [⟨outPath, o.hashHex (o.content outPath) ++ ".png", "",
              false, false⟩] }
    | none => { st with hasDiffs := true }
  else st

/-- The comparison phase of the ImgBB variant: only the candidate loop; the
variant never iterates the base listing. -/
def comparePhaseImgBB (cropPadding cropMinHeight : Int) (o : CompareOracle)
    (basePngs prPngs : List String) : CompareState :=
  prPngs.foldl (compareStepImgBB cropPadding cropMinHeight o basePngs)
    ⟨false, [], [], []⟩

lemma compareStepR2_hasDiffs_mono (p m : Int) (g : Bool) (o : CompareOracle)
    (basePngs : List String) (st : CompareState) (file : String)
    (h : st.hasDiffs = true) :
    (compareStepR2 p m g o basePngs st file).hasDiffs = true := by
  simp only [compareStepR2]
  split
  · rfl
  · split
    · cases o.bbox file <;> simp
    · exact h

lemma deletedStepR2_hasDiffs_mono (o : CompareOracle) (prPngs : List String)
    (st : CompareState) (file : String) (h : st.hasDiffs = true) :
    (deletedStepR2 o prPngs st file).hasDiffs = true := by
  simp only [deletedStepR2]
  split
  · rfl
  · exact h

lemma foldl_hasDiffs_mono {α : Type} (step : CompareState → α → CompareState)
    (hstep : ∀ st a, st.hasDiffs = true → (step st a).hasDiffs = true)
    (l : List α) (st : CompareState) (h : st.hasDiffs = true) :
    (l.foldl step st).hasDiffs = true := by
  induction l generalizing st with
  | nil => exact h
  | cons a t iht => exact iht (step st a) (hstep st a h)

lemma compareStepR2_sets_flag (p m : Int) (g : Bool) (o : CompareOracle)
    (basePngs : List String) (st : CompareState) (file : String)
    (hb : basePngs.contains file = true) (he : o.exitCode file = 22) :
    (compareStepR2 p m g o basePngs st file).hasDiffs = true := by
  simp only [compareStepR2, hb, he]
  cases o.bbox file <;> simp

lemma foldl_compareStepR2_flag (p m : Int) (g : Bool) (o : CompareOracle)
    (basePngs prPngs : List String) (st : CompareState) (file : String)
    (hf : file ∈ prPngs) (hb : basePngs.contains file = true)
    (he : o.exitCode file = 22) :
    (prPngs.foldl (compareStepR2 p m g o basePngs) st).hasDiffs = true := by
  induction prPngs generalizing st with
  | nil => cases hf
  | cons a t iht =>
      rcases List.mem_cons.mp hf with rfl | hmem
      · exact foldl_hasDiffs_mono _ (compareStepR2_hasDiffs_mono p m g o _) t _
          (compareStepR2_sets_flag p m g o basePngs st file hb he)
      · exact iht _ hmem

/-- A changed screenshot whose bounding box fails to parse contributes the
flag and nothing else: the state is unchanged except hasDiffs (part_002
lines 216-316, the bboxMatch null case). -/
lemma compareStepR2_parse_failure (p m : Int) (g : Bool) (o : CompareOracle)
    (basePngs : List String) (st : CompareState) (file : String)
    (hb : basePngs.contains file = true) (he : o.exitCode file = 22)
    (hbb : o.bbox file = none) :
    compareStepR2 p m g o basePngs st file = { st with hasDiffs := true } := by
  have hmem : file ∈ basePngs := List.mem_of_elem_eq_true hb
  simp [compareStepR2, hb, he, hbb, hmem]

lemma comparePhaseR2_flag_of_changed (p m : Int) (g : Bool)
    (o : CompareOracle) (basePngs prPngs : List String) (file : String)
    (hf : file ∈ prPngs) (hb : basePngs.contains file = true)
    (he : o.exitCode file = 22) :
    (comparePhaseR2 p m g o basePngs prPngs).hasDiffs = true := by
  unfold comparePhaseR2
  exact foldl_hasDiffs_mono _ (deletedStepR2_hasDiffs_mono o prPngs) basePngs _
    (foldl_compareStepR2_flag p m g o basePngs prPngs _ file hf hb he)

/-! ### Artifact publishers

getFileHash (identical in all three variants) is the sha256 hex digest of
the file bytes; sha256 itself is the external crypto module, passed in as
the digest function. -/

/-- getFileHash: read the file and return the hex digest of its bytes. -/
def getFileHash (hashHex : List Nat → String) (fileBytes : String → List Nat)
    (path : String) : String :=
  hashHex (fileBytes path)

/-- One insertion into the Map of uploadToR2 (part_002 lines 482-488):
images are grouped by hash; a new hash is appended as a new key (Map keys
iterate in insertion order), an existing hash appends to its group. -/
def insertByHash (gs : List (String × List UploadEntry))
    (img : UploadEntry) : List (String × List UploadEntry) :=
  match gs with
  | [] => [(img.hash, [img])]
  | (h, l) :: rest =>
      if h = img.hash then (h, l ++ [img]) :: rest
      else (h, l) :: insertByHash rest img

/-- The imagesByHash Map of uploadToR2. -/
def groupByHash (images : List UploadEntry) :
    List (String × List UploadEntry) :=
  images.foldl insertByHash []

/-- Observable result of a publisher invocation: how many network uploads
were performed, which URL each queued image received, and the error thrown
(if any). -/
structure PublishResult where
  attempted : Nat
  urls : List (UploadEntry × String)
  error : Option String
deriving Repr, DecidableEq

/-- uploadToR2 (part_002 lines 465-545): group images by hash, send one
PutObject per distinct hash - Promise.allSettled runs every send - assign
the URL publicUrl/hash to every image of each successful group, and after
all sends throw one aggregate error counting the rejected sends out of the
unique total. -/
def uploadToR2Model (publicUrl : String) (uploadFails : String → Bool)
    (images : List UploadEntry) : PublishResult :=
  let groups := groupByHash images
  let failures := groups.filter (fun g => uploadFails g.1)
  { attempted := groups.length,
    urls := (groups.filter (fun g => !(uploadFails g.1))).flatMap
      (fun g => g.2.map (fun i => (i, publicUrl ++ "/" ++ g.1))),
    error := if failures.length > 0 then
        some (toString failures.length ++ " of " ++ toString groups.length
          ++ " uploads failed")
      else none }

/-- uploadToImgBB (part_001 lines 408-457): a sequential loop performing
one HTTP upload per image, with no grouping by hash; the URL comes from
each upload response (serverUrl).  A failed upload is rethrown at once, so
images after the failing one are never attempted and the surfaced error is
that single item's error, not an aggregate. -/
def uploadToImgBBModel (serverUrl : UploadEntry → String)
    (uploadFails : UploadEntry → Bool) :
    List UploadEntry → PublishResult
  | [] => { attempted := 0, urls := [], error := none }
  | img :: rest =>
      if uploadFails img then
        { attempted := 1, urls := [],
          error := some ("Failed to upload " ++ img.path ++ " to ImgBB") }
      else
        let r := uploadToImgBBModel serverUrl uploadFails rest
        { attempted := r.attempted + 1,
          urls := (img, serverUrl img) :: r.urls,
          error := r.error }

/-- The key list of a hash grouping. -/
def groupKeys (gs : List (String × List UploadEntry)) : List String :=
  gs.map Prod.fst

lemma groupKeys_insertByHash (gs : List (String × List UploadEntry))
    (img : UploadEntry) :
    groupKeys (insertByHash gs img)
      = if img.hash ∈ groupKeys gs then groupKeys gs
        else groupKeys gs ++ [img.hash] := by
  induction gs with
  | nil => simp [insertByHash, groupKeys]
  | cons g rest iht =>
      obtain ⟨h, l⟩ := g
      by_cases hh : h = img.hash
      · subst hh
        simp [insertByHash, groupKeys]
      · have hne : img.hash ≠ h := fun e => hh e.symm
        have hstep : insertByHash ((h, l) :: rest) img
            = (h, l) :: insertByHash rest img := by
          simp [insertByHash, hh]
        rw [hstep]
        by_cases hm : img.hash ∈ groupKeys rest
        · have hm2 : img.hash ∈ groupKeys ((h, l) :: rest) := by
            simp only [groupKeys, List.map_cons, List.mem_cons]
            exact Or.inr hm
          rw [if_pos hm2]
          rw [if_pos hm] at iht
          simp only [groupKeys, List.map_cons] at iht ⊢
          rw [iht]
        · have hm2 : img.hash ∉ groupKeys ((h, l) :: rest) := by
            simp only [groupKeys, List.map_cons, List.mem_cons]
            rintro (e | e)
            · exact hne e
            · exact hm e
          rw [if_neg hm2]
          rw [if_neg hm] at iht
          simp only [groupKeys, List.map_cons] at iht ⊢
          rw [iht]
          simp

lemma groupKeys_insertByHash_nodup (gs : List (String × List UploadEntry))
    (img : UploadEntry) (h : (groupKeys gs).Nodup) :
    (groupKeys (insertByHash gs img)).Nodup := by
  rw [groupKeys_insertByHash]
  by_cases hm : img.hash ∈ groupKeys gs
  · simpa [hm]
  · simpa [hm, List.nodup_append] using h

lemma mem_groupKeys_insertByHash (gs : List (String × List UploadEntry))
    (img : UploadEntry) (a : String) :
    a ∈ groupKeys (insertByHash gs img) ↔
      a ∈ groupKeys gs ∨ a = img.hash := by
  rw [groupKeys_insertByHash]
  by_cases hm : img.hash ∈ groupKeys gs
  · simp only [hm, if_true]
    constructor
    · exact Or.inl
    · rintro (h | rfl)
      · exact h
      · exact hm
  · simp [hm]

lemma groupKeys_foldl_nodup (images : List UploadEntry)
    (gs : List (String × List UploadEntry)) (h : (groupKeys gs).Nodup) :
    (groupKeys (images.foldl insertByHash gs)).Nodup := by
  induction images generalizing gs with
  | nil => exact h
  | cons i t iht =>
      exact iht _ (groupKeys_insertByHash_nodup gs i h)

lemma mem_groupKeys_foldl (images : List UploadEntry)
    (gs : List (String × List UploadEntry)) (a : String) :
    a ∈ groupKeys (images.foldl insertByHash gs) ↔
      a ∈ groupKeys gs ∨ a ∈ images.map UploadEntry.hash := by
  induction images generalizing gs with
  | nil => simp
  | cons i t iht =>
      simp only [List.foldl_cons, iht, mem_groupKeys_insertByHash,
        List.map_cons, List.mem_cons]
      tauto

/-- Every key of the grouping labels exactly its own images: each member of
a group carries the group's hash. -/
lemma groups_hash_inv_insert (gs : List (String × List UploadEntry))
    (img : UploadEntry)
    (h : ∀ g ∈ gs, ∀ i ∈ g.2, i.hash = g.1) :
    ∀ g ∈ insertByHash gs img, ∀ i ∈ g.2, i.hash = g.1 := by
  induction gs with
  | nil =>
      intro g hg i hi
      simp only [insertByHash, List.mem_singleton] at hg
      subst hg
      simp only [List.mem_singleton] at hi
      subst hi
      rfl
  | cons p rest iht =>
      obtain ⟨hh, l⟩ := p
      intro g hg i hi
      by_cases he : hh = img.hash
      · subst he
        have hstep : insertByHash ((img.hash, l) :: rest) img
            = (img.hash, l ++ [img]) :: rest := by
          simp [insertByHash]
        rw [hstep] at hg
        rcases List.mem_cons.mp hg with rfl | hg
        · replace hi : i ∈ l ++ [img] := hi
          simp only [List.mem_append, List.mem_singleton] at hi
          rcases hi with hi | rfl
          · exact h (img.hash, l) (List.mem_cons_self _ _) i hi
          · rfl
        · exact h g (List.mem_cons_of_mem _ hg) i hi
      · simp only [insertByHash, if_neg he, List.mem_cons] at hg
        rcases hg with rfl | hg
        · exact h _ (List.mem_cons_self _ _) i hi
        · exact iht (fun g2 hg2 => h g2 (List.mem_cons_of_mem _ hg2)) g hg i hi

lemma groups_hash_inv_foldl (images : List UploadEntry)
    (gs : List (String × List UploadEntry))
    (h : ∀ g ∈ gs, ∀ i ∈ g.2, i.hash = g.1) :
    ∀ g ∈ images.foldl insertByHash gs, ∀ i ∈ g.2, i.hash = g.1 := by
  induction images generalizing gs with
  | nil => exact h
  | cons i t iht =>
      exact iht _ (groups_hash_inv_insert gs i h)

lemma groups_hash_inv (images : List UploadEntry) :
    ∀ g ∈ groupByHash images, ∀ i ∈ g.2, i.hash = g.1 := by
  exact groups_hash_inv_foldl images [] (by intro g hg; cases hg)

/-- Every URL the R2 publisher assigns is the content-addressed URL
publicUrl/hash of the image it is assigned to. -/
lemma uploadToR2Model_url_formula (publicUrl : String)
    (uploadFails : String → Bool) (images : List UploadEntry) :
    ∀ p ∈ (uploadToR2Model publicUrl uploadFails images).urls,
      p.2 = publicUrl ++ "/" ++ p.1.hash := by
  intro p hp
  simp only [uploadToR2Model, List.mem_flatMap, List.mem_filter] at hp
  obtain ⟨g, ⟨hg, -⟩, hmem⟩ := hp
  simp only [List.mem_map] at hmem
  obtain ⟨i, hi, rfl⟩ := hmem
  have := groups_hash_inv images g hg i hi
  simp [this]

/-- With no failing upload, the ImgBB loop performs one upload per queued
image - byte-identical images included. -/
lemma uploadToImgBBModel_attempted_all (serverUrl : UploadEntry → String)
    (images : List UploadEntry) :
    (uploadToImgBBModel serverUrl (fun _ => false) images).attempted
      = images.length := by
  induction images with
  | nil => rfl
  | cons i t iht => simp [uploadToImgBBModel, iht]

/-- The ImgBB loop rethrows at the first failing image: images after it
are never attempted and the error is that item's error alone. -/
lemma uploadToImgBBModel_abort (serverUrl : UploadEntry → String)
    (entryFails : UploadEntry → Bool) (pre post : List UploadEntry)
    (img : UploadEntry) (hpre : ∀ i ∈ pre, entryFails i = false)
    (himg : entryFails img = true) :
    uploadToImgBBModel serverUrl entryFails (pre ++ img :: post)
      = { attempted := pre.length + 1,
          urls := pre.map (fun i => (i, serverUrl i)),
          error := some ("Failed to upload " ++ img.path ++ " to ImgBB") } := by
  induction pre with
  | nil => simp [uploadToImgBBModel, himg]
  | cons i t iht =>
      have hi : entryFails i = false := hpre i (List.mem_cons_self _ _)
      have ht := iht (fun j hj => hpre j (List.mem_cons_of_mem _ hj))
      simp [uploadToImgBBModel, hi, ht]

/-- Two queued images with one hash form a single group, so the R2
publisher uploads them once and assigns both the same URL. -/
lemma uploadToR2Model_pair_dedup (publicUrl : String)
    (uploadFails : String → Bool) (i j : UploadEntry)
    (hij : i.hash = j.hash) (hok : uploadFails i.hash = false) :
    (uploadToR2Model publicUrl uploadFails [i, j]).attempted = 1
    ∧ (uploadToR2Model publicUrl uploadFails [i, j]).urls
        = [(i, publicUrl ++ "/" ++ i.hash), (j, publicUrl ++ "/" ++ i.hash)]
    ∧ (uploadToR2Model publicUrl uploadFails [i, j]).error = none := by
  have hgroups : groupByHash [i, j] = [(i.hash, [i, j])] := by
    simp [groupByHash, insertByHash, hij]
  refine ⟨?_, ?_, ?_⟩ <;> simp [uploadToR2Model, hgroups, hok]

/-- The R2 publisher counts one attempted upload per distinct hash. -/
lemma uploadToR2Model_attempted_eq (u : String) (f : String → Bool)
    (images : List UploadEntry) :
    (uploadToR2Model u f images).attempted
      = (groupByHash images).length := rfl

/-- The R2 publisher escalates exactly when some group's send rejected. -/
lemma uploadToR2Model_error_iff (u : String) (f : String → Bool)
    (images : List UploadEntry) :
    (uploadToR2Model u f images).error.isSome
      ↔ ∃ g ∈ groupByHash images, f g.1 = true := by
  simp only [uploadToR2Model]
  by_cases h : ((groupByHash images).filter (fun g => f g.1)).length > 0
  · simp only [h, if_true, Option.isSome_some, true_iff]
    obtain ⟨g, hg⟩ := List.exists_mem_of_length_pos h
    have hm := List.mem_filter.mp hg
    exact ⟨g, hm.1, by simpa using hm.2⟩
  · simp only [h, if_false, Option.isSome_none, Bool.false_eq_true, false_iff]
    rintro ⟨g, hg, hf⟩
    exact h (List.length_pos.mpr
      (List.ne_nil_of_mem (List.mem_filter.mpr ⟨hg, by simpa using hf⟩)))

/-- The aggregate error message of the R2 publisher: the number of
rejected sends out of the unique total. -/
lemma uploadToR2Model_error_message (u : String) (f : String → Bool)
    (images : List UploadEntry)
    (h : ((groupByHash images).filter (fun g => f g.1)).length > 0) :
    (uploadToR2Model u f images).error
      = some (toString ((groupByHash images).filter (fun g => f g.1)).length
          ++ " of " ++ toString (groupByHash images).length
          ++ " uploads failed") := by
  simp [uploadToR2Model, h]

/-- A changed screenshot whose bounding box fails to parse contributes the
flag and nothing else in the fused loop (src/index.ts lines 185-253, the
regex-no-match case). -/
lemma fusedCompareStep_parse_failure (p m : Int) (ih : String → Int)
    (bn : List String) (ec : String → Nat) (bb : String → Option Bbox)
    (st : FusedCompareState) (file : String)
    (hg : fusedShouldProcess file = true) (hb : bn.contains file = true)
    (he : ec file = 22) (hbb : bb file = none) :
    fusedCompareStep p m ih bn ec bb st file
      = { st with hasDiffs := true } := by
  rw [fusedShouldProcess, Bool.and_eq_true] at hg
  have hg2 : strIncludes file "diff" = false := by
    have := hg.2
    revert this
    cases strIncludes file "diff" <;> simp
  have hmem : file ∈ bn := List.mem_of_elem_eq_true hb
  simp [fusedCompareStep, hg.1, hg2, hb, he, hbb, hmem]

/-! ### The diff-threshold input

getInputs (all variants) computes parseFloat(raw) || 0.1.  The JS
or-operator falls back to the default not only for NaN (unset or
unparseable input) but also for the parsed value 0. -/

/-- The decimal digits consumed greedily from the head of a character
list, together with the remainder. -/
def takeDigits : List Char → List Char × List Char
  | [] => ([], [])
  | c :: cs =>
      if c.isDigit then
        let p := takeDigits cs
        (c :: p.1, p.2)
      else ([], c :: cs)

/-- Numeric value of a digit run. -/
def digitsToNat (l : List Char) : Nat :=
  l.foldl (fun a c => a * 10 + (c.toNat - 48)) 0

/-- The lexical part of JS parseFloat on the plain decimal forms the
action inputs take: optional leading spaces and sign, an integer digit
run, an optional fractional digit run after a dot; trailing characters are
ignored.  none models NaN (no digits at all, as for the empty string).
The parts are the sign, the integer value, the fraction value and the
fraction digit count. -/
def parseFloatParts (s : String) : Option (Bool × Nat × Nat × Nat) :=
  let cs := s.toList.dropWhile (fun c => c = ' ')
  let signAndRest : Bool × List Char :=
    match cs with
    | '-' :: r => (true, r)
    | '+' :: r => (false, r)
    | r => (false, r)
  let intPart := takeDigits signAndRest.2
  let fracDigits :=
    match intPart.2 with
    | '.' :: r => (takeDigits r).1
    | _ => []
  if intPart.1.isEmpty && fracDigits.isEmpty then none
  else some (signAndRest.1, digitsToNat intPart.1, digitsToNat fracDigits,
    fracDigits.length)

/-- The numeric value of parsed parts. -/
def ratOfParts (p : Bool × Nat × Nat × Nat) : ℚ :=
  let v : ℚ := (p.2.1 : ℚ) + (p.2.2.1 : ℚ) / ((10 : ℚ) ^ p.2.2.2)
  if p.1 then -v else v

/-- JS parseFloat on the action's decimal inputs. -/
def jsParseFloat (s : String) : Option ℚ :=
  (parseFloatParts s).map ratOfParts

/-- diffThreshold as computed by getInputs in every variant:
parseFloat(getInput) || 0.1. -/
def diffThresholdOf (raw : String) : ℚ :=
  match jsParseFloat raw with
  | none => 1 / 10
  | some x => if x = 0 then 1 / 10 else x

/-- One odiff comparison invocation as built in the comparison loops:
odiff base new out --threshold t, where t is inputs.diffThreshold passed
through unmodified. -/
structure OdiffInvocation where
  baseImg : String
  newImg : String
  outPath : String
  threshold : ℚ
deriving Repr, DecidableEq

/-- The odiff call a comparison loop makes for one shared screenshot,
given the raw configured threshold string: the threshold argument is the
getInputs value diffThresholdOf raw. -/
def odiffCallOfInputs (raw : String) (baseImg newImg outPath : String) :
    OdiffInvocation :=
  ⟨baseImg, newImg, outPath, diffThresholdOf raw⟩

/-! ### Run skeletons

Each run function is a sequential script whose control flow is
conditionals over subprocess exit codes and caught exceptions; each is
modelled as a total function over an oracle describing the environment.
An error thrown past the local handlers reaches the top-level catch of
run(), which calls setFailed; a caught error logs a warning and the run
continues. -/

/-- Observable outcome of one run: the outputs set with setOutput in
order, whether setFailed was called, how many warnings were logged, the
shared names odiff actually compared, how many network uploads were
performed and how many comment creations were attempted. -/
structure RunOutcome where
  outputs : List (String × String)
  failed : Bool
  warnings : Nat
  comparedFiles : List String
  uploadCalls : Nat
  commentCalls : Nat
deriving Repr, DecidableEq

/-- The configuration the fused run reads (src/index.ts getInputs). -/
structure FusedInputs where
  installDeps : Bool
  postComment : Bool
  commitScreenshots : Bool
  useCiBranch : Bool
  failOnChanges : Bool
  cropPadding : Int
  cropMinHeight : Int

/-- The environment of one fused run: the pull-request context (none when
the event is not a pull request) and the behavior of every external
collaborator the script consults, in script order. -/
structure FusedOracle where
  prNumber : Option Nat
  installFails : Bool
  fetchBaseThrows : Bool
  hasBase : Bool
  testsFail : Bool
  candidateFiles : List String
  baseNames : List String
  imgHeight : String → Int
  exitCode : String → Nat
  bbox : String → Option Bbox
  gitStatusThrows : Bool
  gitHasChanges : Bool
  uploadThrows : Bool
  commentFails : Bool
  commitFails : Bool

/-- The comparison state the fused run computes: the comparison loop runs
only when base screenshots were found, otherwise the state stays empty and
hasDiffs stays false (src/index.ts lines 130-256). -/
def fusedCmp (inp : FusedInputs) (o : FusedOracle) : FusedCompareState :=
  if o.hasBase then
    fusedComparePhase inp.cropPadding inp.cropMinHeight o.imgHeight
      o.baseNames o.exitCode o.bbox o.candidateFiles
  else ⟨false, [], []⟩

/-- Guard of the fused comment block (src/index.ts line 274). -/
def fusedDoComment (inp : FusedInputs) (o : FusedOracle) : Bool :=
  (fusedCmp inp o).hasDiffs && inp.postComment

/-- Guard of the fused CI-branch upload (src/index.ts lines 289 and 318):
inside the comment block, with use-ci-branch set and a nonempty queue. -/
def fusedDoUpload (inp : FusedInputs) (o : FusedOracle) : Bool :=
  fusedDoComment inp o
    && (inp.useCiBranch && !(fusedCmp inp o).combined.isEmpty)

/-- Run skeleton of the fused pipeline (src/index.ts run, lines 47-421):
return early with a warning outside a pull request; npm ci and the
playwright command throw fatally; the base fetch block and the git status
check only warn; the comparison loop runs only when a base was found; the
comment block runs on diffs, uploading to the CI branch first (a rejected
upload is fatal - uploadToCiBranch has no catch) and tolerating a failed
comment; the commit block tolerates failure; the four outputs are set at
the end and setFailed fires iff fail-on-changes is set and diffs exist. -/
def runFusedModel (inp : FusedInputs) (o : FusedOracle) : RunOutcome :=
  match o.prNumber with
  | none =>
      { outputs := [], failed := false, warnings := 1, comparedFiles := [],
        uploadCalls := 0, commentCalls := 0 }
  | some _ =>
      if inp.installDeps && o.installFails then
        { outputs := [], failed := true, warnings := 0, comparedFiles := [],
          uploadCalls := 0, commentCalls := 0 }
      else
        let w1 : Nat := if o.fetchBaseThrows then 1 else 0
        if o.testsFail then
          { outputs := [], failed := true, warnings := w1,
            comparedFiles := [], uploadCalls := 0, commentCalls := 0 }
        else
          let cmp := fusedCmp inp o
          let compared := if o.hasBase then
              o.candidateFiles.filter
                (fun f => fusedShouldProcess f && o.baseNames.contains f)
            else []
          let w2 := w1 + (if o.gitStatusThrows then 1 else 0)
          let hasChanges := !o.gitStatusThrows && o.gitHasChanges
          let doComment := fusedDoComment inp o
          let doUpload := fusedDoUpload inp o
          if doUpload && o.uploadThrows then
            { outputs := [], failed := true, warnings := w2,
              comparedFiles := compared, uploadCalls := 1, commentCalls := 0 }
          else
            let doCommit := hasChanges && inp.commitScreenshots
            let commentPosted := doComment && !o.commentFails
            let committed := doCommit && !o.commitFails
            let w3 := w2 + (if doComment && o.commentFails then 1 else 0)
              + (if doCommit && o.commitFails then 1 else 0)
            { outputs := [("has-changes", toString hasChanges),
                ("has-diffs", toString cmp.hasDiffs),
                ("screenshots-committed", toString committed),
                ("comment-posted", toString commentPosted)],
              failed := inp.failOnChanges && cmp.hasDiffs,
              warnings := w3,
              comparedFiles := compared,
              uploadCalls := if doUpload then 1 else 0,
              commentCalls := if doComment then 1 else 0 }

/-- The configuration the R2 compare run reads. -/
structure CompareRunInputs where
  postComment : Bool
  failOnChanges : Bool
  cropPadding : Int
  cropMinHeight : Int
  animatedGif : Bool
  publicUrl : String

/-- The environment of one compare run. -/
structure CompareRunOracle where
  prNumber : Option Nat
  basePngs : List String
  prPngs : List String
  comparison : CompareOracle
  uploadFails : String → Bool
  commentFails : Bool

/-- The comparison state of one R2 compare run. -/
def r2Cmp (inp : CompareRunInputs) (o : CompareRunOracle) : CompareState :=
  comparePhaseR2 inp.cropPadding inp.cropMinHeight inp.animatedGif
    o.comparison o.basePngs o.prPngs

/-- Guard of the R2 comment block (part_002 line 345). -/
def r2DoComment (inp : CompareRunInputs) (o : CompareRunOracle) : Bool :=
  inp.postComment && ((r2Cmp inp o).hasDiffs
    && (!(r2Cmp inp o).entries.isEmpty
      || !(r2Cmp inp o).deletedScreenshots.isEmpty))

/-- Guard of the R2 upload call (part_002 line 349). -/
def r2DoUpload (inp : CompareRunInputs) (o : CompareRunOracle) : Bool :=
  r2DoComment inp o && !(r2Cmp inp o).entries.isEmpty

/-- Run skeleton of the R2 compare pipeline (part_002 runCompare, lines
128-439): return early with a warning outside a pull request; throw
fatally when the candidate artifact has no pngs; run the two
classification loops; set has-diffs; on diffs with post-comment enabled,
upload all queued images to R2 (an aggregate upload error is fatal and
comment-posted is then never set) and tolerate a failed comment; set
comment-posted; setFailed iff fail-on-changes is set and diffs exist. -/
def runCompareR2Model (inp : CompareRunInputs) (o : CompareRunOracle) :
    RunOutcome :=
  match o.prNumber with
  | none =>
      { outputs := [], failed := false, warnings := 1, comparedFiles := [],
        uploadCalls := 0, commentCalls := 0 }
  | some _ =>
      if o.prPngs.isEmpty then
        { outputs := [], failed := true, warnings := 0, comparedFiles := [],
          uploadCalls := 0, commentCalls := 0 }
      else
        let cmp := r2Cmp inp o
        let compared := o.prPngs.filter (fun f => o.basePngs.contains f)
        let out1 := [("has-diffs", toString cmp.hasDiffs)]
        let doComment := r2DoComment inp o
        let doUpload := r2DoUpload inp o
        let pub := uploadToR2Model inp.publicUrl o.uploadFails cmp.entries
        if doUpload && pub.error.isSome then
          { outputs := out1, failed := true, warnings := 0,
            comparedFiles := compared, uploadCalls := pub.attempted,
            commentCalls := 0 }
        else
          let commentPosted := doComment && !o.commentFails
          { outputs := out1 ++ [("comment-posted", toString commentPosted)],
            failed := inp.failOnChanges && cmp.hasDiffs,
            warnings := if doComment && o.commentFails then 1 else 0,
            comparedFiles := compared,
            uploadCalls := if doUpload then pub.attempted else 0,
            commentCalls := if doComment then 1 else 0 }

/-- Run skeleton of the ImgBB compare pipeline (part_001 runCompare, lines
174-382): as the R2 variant, but new and deleted names queue nothing and
set no flag, the upload loop is sequential with an immediate rethrow (one
warning is logged by its catch before rethrowing), and the comment guard
is postComment, hasDiffs and a nonempty queue. -/
def runCompareImgBBModel (postComment failOnChanges : Bool)
    (cropPadding cropMinHeight : Int) (o : CompareRunOracle)
    (serverUrl : UploadEntry → String) (entryFails : UploadEntry → Bool) :
    RunOutcome :=
  match o.prNumber with
  | none =>
      { outputs := [], failed := false, warnings := 1, comparedFiles := [],
        uploadCalls := 0, commentCalls := 0 }
  | some _ =>
      if o.prPngs.isEmpty then
        { outputs := [], failed := true, warnings := 0, comparedFiles := [],
          uploadCalls := 0, commentCalls := 0 }
      else
        let cmp := comparePhaseImgBB cropPadding cropMinHeight o.comparison
          o.basePngs o.prPngs
        let compared := o.prPngs.filter (fun f => o.basePngs.contains f)
        let out1 := [("has-diffs", toString cmp.hasDiffs)]
        let doComment := postComment && cmp.hasDiffs && !cmp.entries.isEmpty
        let pub := uploadToImgBBModel serverUrl entryFails cmp.entries
        if doComment && pub.error.isSome then
          { outputs := out1, failed := true, warnings := 1,
            comparedFiles := compared, uploadCalls := pub.attempted,
            commentCalls := 0 }
        else
          let commentPosted := doComment && !o.commentFails
          { outputs := out1 ++ [("comment-posted", toString commentPosted)],
            failed := failOnChanges && cmp.hasDiffs,
            warnings := if doComment && o.commentFails then 1 else 0,
            comparedFiles := compared,
            uploadCalls := if doComment then pub.attempted else 0,
            commentCalls := if doComment then 1 else 0 }

/-! ### Exit-status characterization -/

/-- Follows the spec's words on the exit status, instantiated with the
fatal steps of the fused run: exit is nonzero exactly when a fatal step
threw - dependency install, the test command, the CI-branch artifact upload
- or changes were detected with fail-on-changes enabled. -/
def specExitFused (inp : FusedInputs) (o : FusedOracle) : Bool :=
  (inp.installDeps && o.installFails) || o.testsFail
    || (fusedDoUpload inp o && o.uploadThrows)
    || (inp.failOnChanges && (fusedCmp inp o).hasDiffs)

/-- Follows the spec's words on the exit status, instantiated with the
fatal steps of the R2 compare run: an empty candidate artifact, or an
aggregate upload failure, or changes with fail-on-changes enabled. -/
def specExitR2 (inp : CompareRunInputs) (o : CompareRunOracle) : Bool :=
  o.prPngs.isEmpty
    || (r2DoUpload inp o && (uploadToR2Model inp.publicUrl o.uploadFails
          (r2Cmp inp o).entries).error.isSome)
    || (inp.failOnChanges && (r2Cmp inp o).hasDiffs)

/-- Follows the spec's words on the exit status for the ImgBB compare run:
an empty candidate artifact, or a rethrown upload failure, or changes with
fail-on-changes enabled. -/
def specExitImgBB (postComment failOnChanges : Bool)
    (cropPadding cropMinHeight : Int) (o : CompareRunOracle)
    (serverUrl : UploadEntry → String) (entryFails : UploadEntry → Bool) :
    Bool :=
  let cmp := comparePhaseImgBB cropPadding cropMinHeight o.comparison
    o.basePngs o.prPngs
  o.prPngs.isEmpty
    || ((postComment && cmp.hasDiffs && !cmp.entries.isEmpty)
        && (uploadToImgBBModel serverUrl entryFails cmp.entries).error.isSome)
    || (failOnChanges && cmp.hasDiffs)

lemma runFusedModel_failed_char (inp : FusedInputs) (o : FusedOracle)
    (n : Nat) (hpr : o.prNumber = some n) :
    (runFusedModel inp o).failed = specExitFused inp o := by
  unfold runFusedModel
  rw [hpr]
  simp only [specExitFused]
  by_cases h1 : (inp.installDeps && o.installFails) = true
  · simp [h1]
  · by_cases h2 : o.testsFail = true
    · simp [h1, h2]
    · by_cases h3 : (fusedDoUpload inp o && o.uploadThrows) = true
      · simp [h1, h2, h3]
      · simp [h1, h2, h3]

lemma runFusedModel_failed_warning_invariant (inp : FusedInputs)
    (o : FusedOracle) (b1 b2 b3 b4 : Bool) :
    (runFusedModel inp
        { o with
          commentFails := b1,
          commitFails := b2,
          fetchBaseThrows := b3,
          gitStatusThrows := b4 }).failed
      = (runFusedModel inp o).failed := by
  obtain ⟨pr, inst, fb, hb, tf, cf2, bn, ihh, ec, bb, gs, gh, up, cm, ct⟩ := o
  cases pr with
  | none => rfl
  | some n =>
      rw [runFusedModel_failed_char _ _ n rfl,
        runFusedModel_failed_char _ _ n rfl]
      rfl

lemma specExitFused_no_base (inp : FusedInputs) (o : FusedOracle)
    (h : o.hasBase = false) :
    specExitFused inp o
      = ((inp.installDeps && o.installFails) || o.testsFail) := by
  simp [specExitFused, fusedDoUpload, fusedDoComment, fusedCmp, h]

lemma runCompareR2Model_failed_char (inp : CompareRunInputs)
    (o : CompareRunOracle) (n : Nat) (hpr : o.prNumber = some n) :
    (runCompareR2Model inp o).failed = specExitR2 inp o := by
  unfold runCompareR2Model
  rw [hpr]
  simp only [specExitR2]
  by_cases h1 : o.prPngs.isEmpty = true
  · simp [h1]
  · by_cases h2 : (r2DoUpload inp o
        && (uploadToR2Model inp.publicUrl o.uploadFails
          (r2Cmp inp o).entries).error.isSome) = true
    · simp [h1, h2]
    · simp [h1, h2]

lemma runCompareR2Model_failed_comment_invariant (inp : CompareRunInputs)
    (o : CompareRunOracle) (b : Bool) :
    (runCompareR2Model inp { o with commentFails := b }).failed
      = (runCompareR2Model inp o).failed := by
  obtain ⟨pr, bp, pp, co, uf, cf⟩ := o
  cases pr with
  | none => rfl
  | some n =>
      rw [runCompareR2Model_failed_char _ _ n rfl,
        runCompareR2Model_failed_char _ _ n rfl]
      rfl

lemma runCompareImgBBModel_failed_char (postComment failOnChanges : Bool)
    (cropPadding cropMinHeight : Int) (o : CompareRunOracle)
    (serverUrl : UploadEntry → String) (entryFails : UploadEntry → Bool)
    (n : Nat) (hpr : o.prNumber = some n) :
    (runCompareImgBBModel postComment failOnChanges cropPadding
        cropMinHeight o serverUrl entryFails).failed
      = specExitImgBB postComment failOnChanges cropPadding cropMinHeight o
          serverUrl entryFails := by
  unfold runCompareImgBBModel
  rw [hpr]
  simp only [specExitImgBB]
  by_cases h1 : o.prPngs.isEmpty = true
  · simp [h1]
  · by_cases h2 : ((postComment
        && (comparePhaseImgBB cropPadding cropMinHeight o.comparison
          o.basePngs o.prPngs).hasDiffs
        && !(comparePhaseImgBB cropPadding cropMinHeight o.comparison
          o.basePngs o.prPngs).entries.isEmpty)
        && (uploadToImgBBModel serverUrl entryFails
          (comparePhaseImgBB cropPadding cropMinHeight o.comparison
            o.basePngs o.prPngs).entries).error.isSome) = true
    · simp [h1, h2]
    · simp [h1, h2]

lemma runCompareImgBBModel_failed_comment_invariant
    (postComment failOnChanges : Bool) (cropPadding cropMinHeight : Int)
    (o : CompareRunOracle) (serverUrl : UploadEntry → String)
    (entryFails : UploadEntry → Bool) (b : Bool) :
    (runCompareImgBBModel postComment failOnChanges cropPadding
        cropMinHeight { o with commentFails := b } serverUrl
        entryFails).failed
      = (runCompareImgBBModel postComment failOnChanges cropPadding
          cropMinHeight o serverUrl entryFails).failed := by
  obtain ⟨pr, bp, pp, co, uf, cf⟩ := o
  cases pr with
  | none => rfl
  | some n =>
      rw [runCompareImgBBModel_failed_char postComment failOnChanges
          cropPadding cropMinHeight _ serverUrl entryFails n rfl,
        runCompareImgBBModel_failed_char postComment failOnChanges
          cropPadding cropMinHeight _ serverUrl entryFails n rfl]
      rfl

/-! ## Claim theorems -/

/-- C1 counterexample: with padding 50 and minimum height 300 (both
nonnegative) the claimed invariant fails on the code: in the compare
pipelines the crop for bounding box 1280x80+0+300 on a 400px-tall image
ends at row 700 > 400, because no clamp against the image height is
applied; and in the fused pipeline a 200px-tall image yields a crop height
of 200 < 300 = M. -/
theorem C1_counterexample :
    ((0 : Int) ≤ 50 ∧ (0 : Int) ≤ 300)
    ∧ ¬ ((cropRegionCompare 50 300 ⟨1280, 80, 0, 300⟩).finalY
        + (cropRegionCompare 50 300 ⟨1280, 80, 0, 300⟩).finalHeight ≤ 400)
    ∧ ¬ ((300 : Int)
        ≤ (cropRegionFused 50 300 200 ⟨1280, 10, 0, 0⟩).finalHeight) := by
  decide

/-- C1 (amended): for every parsed bounding box and every padding P ≥ 0
and minimum height M ≥ 0, the fused pipeline's crop has a nonnegative
offset and stays within the image, and its height is at least M whenever
the image is at least M tall; the compare pipelines' crop always has
height at least M and a nonnegative offset, but is not clamped to the
image height. -/
theorem C1_theorem (P M imgH : Int) (b : Bbox) (_hP : 0 ≤ P) (_hM : 0 ≤ M) :
    (0 ≤ (cropRegionFused P M imgH b).finalY
      ∧ (cropRegionFused P M imgH b).finalY
          + (cropRegionFused P M imgH b).finalHeight ≤ imgH
      ∧ (M ≤ imgH → M ≤ (cropRegionFused P M imgH b).finalHeight))
    ∧ (M ≤ (cropRegionCompare P M b).finalHeight
      ∧ 0 ≤ (cropRegionCompare P M b).finalY) :=
  ⟨⟨cropRegionFused_finalY_nonneg P M imgH b,
    cropRegionFused_within_bounds P M imgH b,
    fun h => cropRegionFused_minHeight P M imgH b h⟩,
   cropRegionCompare_minHeight P M b,
   cropRegionCompare_finalY_nonneg P M b⟩

/-- C1 witness: the amended invariant evaluated at padding 50, minimum
height 300, image height 1000 and bounding box 1280x80+0+300. -/
theorem C1_witness :
    ((0 : Int) ≤ 50 ∧ (0 : Int) ≤ 300)
    ∧ ((0 ≤ (cropRegionFused 50 300 1000 ⟨1280, 80, 0, 300⟩).finalY
      ∧ (cropRegionFused 50 300 1000 ⟨1280, 80, 0, 300⟩).finalY
          + (cropRegionFused 50 300 1000 ⟨1280, 80, 0, 300⟩).finalHeight
            ≤ 1000
      ∧ ((300 : Int) ≤ 1000
          → (300 : Int)
            ≤ (cropRegionFused 50 300 1000 ⟨1280, 80, 0, 300⟩).finalHeight))
    ∧ ((300 : Int) ≤ (cropRegionCompare 50 300 ⟨1280, 80, 0, 300⟩).finalHeight
      ∧ 0 ≤ (cropRegionCompare 50 300 ⟨1280, 80, 0, 300⟩).finalY)) :=
  ⟨⟨by decide, by decide⟩,
   C1_theorem 50 300 1000 ⟨1280, 80, 0, 300⟩ (by decide) (by decide)⟩

/-- C2 counterexample: the orchestrator does not count the structural or
layout exit code (21) as changed - processing a shared name whose odiff
invocation exits 21 leaves the run's diffs flag unset. -/
theorem C2_counterexample :
    ¬ ((compareStepR2 50 300 false
        ⟨fun _ => 21, fun _ => none, fun _ => 0, fun _ => [], fun _ => ""⟩
        ["home.png"] ⟨false, [], [], []⟩ "home.png").hasDiffs = true) := by
  decide

/-- C2 (amended): for every shared screenshot name, the exit code of the
diff invocation is branched on with 22 (pixel difference) as the only
changed signal: after the step the flag equals the previous flag or (code
equals 22), and every other exit code - the layout code 21 included - is
tolerated, leaving the state entirely unchanged without failing the run;
this holds in the R2 compare step and in the fused step alike. -/
theorem C2_theorem (p m : Int) (g : Bool) (o : CompareOracle)
    (basePngs : List String) (st : CompareState) (file : String)
    (ih : String → Int) (bn : List String) (ec : String → Nat)
    (bb : String → Option Bbox) (st2 : FusedCompareState) (file2 : String)
    (hb : basePngs.contains file = true)
    (hg2 : fusedShouldProcess file2 = true)
    (hb2 : bn.contains file2 = true) :
    ((compareStepR2 p m g o basePngs st file).hasDiffs
        = (st.hasDiffs || (o.exitCode file == 22)))
    ∧ (o.exitCode file ≠ 22 → compareStepR2 p m g o basePngs st file = st)
    ∧ ((fusedCompareStep p m ih bn ec bb st2 file2).hasDiffs
        = (st2.hasDiffs || (ec file2 == 22)))
    ∧ (ec file2 ≠ 22 → fusedCompareStep p m ih bn ec bb st2 file2 = st2) := by
  have hmem : file ∈ basePngs := List.mem_of_elem_eq_true hb
  have hmem2 : file2 ∈ bn := List.mem_of_elem_eq_true hb2
  rw [fusedShouldProcess, Bool.and_eq_true] at hg2
  have hinc : strIncludes file2 "diff" = false := by
    have h2 := hg2.2
    revert h2
    cases strIncludes file2 "diff" <;> simp
  refine ⟨?_, ?_, ?_, ?_⟩
  · by_cases he : o.exitCode file = 22
    · cases hbb : o.bbox file <;>
        simp [compareStepR2, hb, he, hmem, hbb]
    · simp [compareStepR2, hb, he, hmem]
  · intro he
    simp [compareStepR2, hb, he, hmem]
  · by_cases he : ec file2 = 22
    · cases hbb : bb file2 <;>
        simp [fusedCompareStep, hg2.1, hinc, hb2, he, hmem2, hbb]
    · simp [fusedCompareStep, hg2.1, hinc, hb2, he, hmem2]
  · intro he
    simp [fusedCompareStep, hg2.1, hinc, hb2, he, hmem2]

/-- C2 witness: the amended statement evaluated on a pair of shared names
with odiff exiting 21 on both. -/
theorem C2_witness :
    (["home.png"] : List String).contains "home.png" = true
    ∧ fusedShouldProcess "home.png" = true
    ∧ (["home.png"] : List String).contains "home.png" = true
    ∧ (((compareStepR2 50 300 false
          ⟨fun _ => 21, fun _ => none, fun _ => 0, fun _ => [], fun _ => ""⟩
          ["home.png"] ⟨false, [], [], []⟩ "home.png").hasDiffs
        = ((⟨false, [], [], []⟩ : CompareState).hasDiffs
            || ((fun _ => (21 : Nat)) "home.png" == 22)))
      ∧ ((fun _ => (21 : Nat)) "home.png" ≠ 22
          → compareStepR2 50 300 false
              ⟨fun _ => 21, fun _ => none, fun _ => 0, fun _ => [],
                fun _ => ""⟩
              ["home.png"] ⟨false, [], [], []⟩ "home.png"
            = ⟨false, [], [], []⟩)
      ∧ ((fusedCompareStep 50 300 (fun _ => 800) ["home.png"]
            (fun _ => 21) (fun _ => none) ⟨false, [], []⟩
            "home.png").hasDiffs
          = ((⟨false, [], []⟩ : FusedCompareState).hasDiffs
              || ((fun _ => (21 : Nat)) "home.png" == 22)))
      ∧ ((fun _ => (21 : Nat)) "home.png" ≠ 22
          → fusedCompareStep 50 300 (fun _ => 800) ["home.png"]
              (fun _ => 21) (fun _ => none) ⟨false, [], []⟩ "home.png"
            = ⟨false, [], []⟩)) :=
  ⟨by decide, by decide, by decide,
   C2_theorem 50 300 false
     ⟨fun _ => 21, fun _ => none, fun _ => 0, fun _ => [], fun _ => ""⟩
     ["home.png"] ⟨false, [], [], []⟩ "home.png"
     (fun _ => 800) ["home.png"] (fun _ => 21) (fun _ => none)
     ⟨false, [], []⟩ "home.png" (by decide) (by decide) (by decide)⟩

/-- C3 counterexample: in the ImgBB compare pipeline a name present only
in the base set receives no classification at all - the variant has no
loop over the base listing, so legacy.png (in base, not in pr) is neither
identical, changed, new nor deleted. -/
theorem C3_counterexample :
    ("legacy.png" ∈ (["legacy.png"] : List String)
      ∨ "legacy.png" ∈ (["home.png"] : List String))
    ∧ classifyImgBB (fun _ => 0) ["legacy.png"] ["home.png"] "legacy.png"
        = none
    ∧ "legacy.png" ∉ classNamesImgBB (fun _ => 0) ["legacy.png"]
        ["home.png"] ScreenshotClass.identical
    ∧ "legacy.png" ∉ classNamesImgBB (fun _ => 0) ["legacy.png"]
        ["home.png"] ScreenshotClass.changed
    ∧ "legacy.png" ∉ classNamesImgBB (fun _ => 0) ["legacy.png"]
        ["home.png"] ScreenshotClass.new
    ∧ "legacy.png" ∉ classNamesImgBB (fun _ => 0) ["legacy.png"]
        ["home.png"] ScreenshotClass.deleted := by
  decide

/-- C3 (amended): in the R2 compare pipeline every screenshot name in the
union of the base and candidate sets is classified into exactly one of
identical, changed, new and deleted, with names in both sets becoming
changed exactly when odiff exits 22 and identical otherwise, candidate-only
names becoming new and base-only names becoming deleted; the ImgBB compare
pipeline classifies only candidate-side names and ignores base-only names
entirely. -/
theorem C3_theorem (ec : String → Nat) (basePngs prPngs : List String)
    (name : String) (h : name ∈ basePngs ∨ name ∈ prPngs) :
    (∃! c : ScreenshotClass, name ∈ classNamesR2 ec basePngs prPngs c)
    ∧ (name ∈ classNamesR2 ec basePngs prPngs ScreenshotClass.new
        ↔ name ∈ prPngs ∧ name ∉ basePngs)
    ∧ (name ∈ classNamesR2 ec basePngs prPngs ScreenshotClass.deleted
        ↔ name ∈ basePngs ∧ name ∉ prPngs)
    ∧ (name ∈ classNamesR2 ec basePngs prPngs ScreenshotClass.changed
        ↔ name ∈ prPngs ∧ name ∈ basePngs ∧ ec name = 22)
    ∧ (name ∈ classNamesR2 ec basePngs prPngs ScreenshotClass.identical
        ↔ name ∈ prPngs ∧ name ∈ basePngs ∧ ec name ≠ 22)
    ∧ (classNamesImgBB ec basePngs prPngs ScreenshotClass.deleted = []) := by
  refine ⟨?_, ?_, ?_, ?_, ?_, rfl⟩
  · obtain ⟨c, hc⟩ := classifyR2_isSome_of_mem_union ec basePngs prPngs name h
    refine ⟨c, (mem_classNamesR2_iff ec basePngs prPngs name c).mpr hc,
      fun c2 hc2 => ?_⟩
    have h2 := (mem_classNamesR2_iff ec basePngs prPngs name c2).mp hc2
    rw [hc] at h2
    exact (Option.some_inj.mp h2).symm
  · simp [classNamesR2, List.mem_filter, List.elem_eq_mem]
  · simp [classNamesR2, List.mem_filter, List.elem_eq_mem]
  · simp [classNamesR2, List.mem_filter, List.elem_eq_mem, and_assoc]
  · simp [classNamesR2, List.mem_filter, List.elem_eq_mem, and_assoc]

/-- C3 witness: the amended classification evaluated on base set
containing legacy.png and home.png and candidate set containing home.png
and pricing.png, at the name legacy.png. -/
theorem C3_witness :
    ("legacy.png" ∈ (["legacy.png", "home.png"] : List String)
      ∨ "legacy.png" ∈ (["home.png", "pricing.png"] : List String))
    ∧ ((∃! c : ScreenshotClass, "legacy.png" ∈ classNamesR2 (fun _ => 0)
          ["legacy.png", "home.png"] ["home.png", "pricing.png"] c)
      ∧ ("legacy.png" ∈ classNamesR2 (fun _ => 0) ["legacy.png", "home.png"]
            ["home.png", "pricing.png"] ScreenshotClass.new
          ↔ "legacy.png" ∈ (["home.png", "pricing.png"] : List String)
            ∧ "legacy.png" ∉ (["legacy.png", "home.png"] : List String))
      ∧ ("legacy.png" ∈ classNamesR2 (fun _ => 0) ["legacy.png", "home.png"]
            ["home.png", "pricing.png"] ScreenshotClass.deleted
          ↔ "legacy.png" ∈ (["legacy.png", "home.png"] : List String)
            ∧ "legacy.png" ∉ (["home.png", "pricing.png"] : List String))
      ∧ ("legacy.png" ∈ classNamesR2 (fun _ => 0) ["legacy.png", "home.png"]
            ["home.png", "pricing.png"] ScreenshotClass.changed
          ↔ "legacy.png" ∈ (["home.png", "pricing.png"] : List String)
            ∧ "legacy.png" ∈ (["legacy.png", "home.png"] : List String)
            ∧ (fun _ => (0 : Nat)) "legacy.png" = 22)
      ∧ ("legacy.png" ∈ classNamesR2 (fun _ => 0) ["legacy.png", "home.png"]
            ["home.png", "pricing.png"] ScreenshotClass.identical
          ↔ "legacy.png" ∈ (["home.png", "pricing.png"] : List String)
            ∧ "legacy.png" ∈ (["legacy.png", "home.png"] : List String)
            ∧ (fun _ => (0 : Nat)) "legacy.png" ≠ 22)
      ∧ (classNamesImgBB (fun _ => 0) ["legacy.png", "home.png"]
          ["home.png", "pricing.png"] ScreenshotClass.deleted = [])) :=
  ⟨by decide,
   C3_theorem (fun _ => 0) ["legacy.png", "home.png"]
     ["home.png", "pricing.png"] "legacy.png" (by decide)⟩

/-- C9: in the fused pipeline a candidate file whose name contains the
substring diff, or does not end in .png, is skipped before any comparison:
the whole comparison loop computes the same state - same flag, same
composites, same crops - as if the file were absent from the listing, for
every oracle. -/
theorem C9_theorem (p m : Int) (ih : String → Int) (bn : List String)
    (ec : String → Nat) (bb : String → Option Bbox) (l₁ l₂ : List String)
    (file : String)
    (h : strIncludes file "diff" = true ∨ strEndsWith file ".png" = false) :
    fusedComparePhase p m ih bn ec bb (l₁ ++ file :: l₂)
      = fusedComparePhase p m ih bn ec bb (l₁ ++ l₂) := by
  apply fusedComparePhase_skip_middle
  rcases h with h | h
  · simp [fusedShouldProcess, h]
  · simp [fusedShouldProcess, h]

/-- C9 witness: the skip property evaluated on home-diff.png, present in
both sets, with an oracle that would report pixel changes for it. -/
theorem C9_witness :
    (strIncludes "home-diff.png" "diff" = true
      ∨ strEndsWith "home-diff.png" ".png" = false)
    ∧ fusedComparePhase 50 300 (fun _ => 800)
        ["home.png", "home-diff.png"] (fun _ => 22)
        (fun _ => some ⟨1280, 10, 0, 0⟩)
        ([] ++ "home-diff.png" :: ["home.png"])
      = fusedComparePhase 50 300 (fun _ => 800)
          ["home.png", "home-diff.png"] (fun _ => 22)
          (fun _ => some ⟨1280, 10, 0, 0⟩) ([] ++ ["home.png"]) :=
  ⟨Or.inl (by decide),
   C9_theorem 50 300 (fun _ => 800) ["home.png", "home-diff.png"]
     (fun _ => 22) (fun _ => some ⟨1280, 10, 0, 0⟩) [] ["home.png"]
     "home-diff.png" (Or.inl (by decide))⟩

/-- C10: outside a pull-request context every pipeline variant logs one
warning and returns successfully: no comparison runs, no upload and no
comment call is made, no output (has-diffs or comment-posted included) is
set, and the exit status is zero. -/
theorem C10_theorem (inp : FusedInputs) (o : FusedOracle)
    (inp2 : CompareRunInputs) (o2 : CompareRunOracle) (pc foc : Bool)
    (cp cm : Int) (o3 : CompareRunOracle) (su : UploadEntry → String)
    (ef : UploadEntry → Bool)
    (h1 : o.prNumber = none) (h2 : o2.prNumber = none)
    (h3 : o3.prNumber = none) :
    runFusedModel inp o
      = { outputs := [], failed := false, warnings := 1,
          comparedFiles := [], uploadCalls := 0, commentCalls := 0 }
    ∧ runCompareR2Model inp2 o2
      = { outputs := [], failed := false, warnings := 1,
          comparedFiles := [], uploadCalls := 0, commentCalls := 0 }
    ∧ runCompareImgBBModel pc foc cp cm o3 su ef
      = { outputs := [], failed := false, warnings := 1,
          comparedFiles := [], uploadCalls := 0, commentCalls := 0 } := by
  refine ⟨?_, ?_, ?_⟩
  · unfold runFusedModel
    rw [h1]
  · unfold runCompareR2Model
    rw [h2]
  · unfold runCompareImgBBModel
    rw [h3]

/-- C10 witness: the early return evaluated on concrete oracles with no
pull-request context. -/
theorem C10_witness :
    (FusedOracle.mk none false false false false [] [] (fun _ => 0)
        (fun _ => 0) (fun _ => none) false false false false false).prNumber
      = none
    ∧ (runFusedModel ⟨false, false, false, false, false, 50, 300⟩
        ⟨none, false, false, false, false, [], [], fun _ => 0, fun _ => 0,
          fun _ => none, false, false, false, false, false⟩
      = { outputs := [], failed := false, warnings := 1,
          comparedFiles := [], uploadCalls := 0, commentCalls := 0 }
    ∧ runCompareR2Model ⟨false, false, 50, 300, false, "u"⟩
        ⟨none, [], ["home.png"],
          ⟨fun _ => 0, fun _ => none, fun _ => 0, fun _ => [], fun _ => ""⟩,
          fun _ => false, false⟩
      = { outputs := [], failed := false, warnings := 1,
          comparedFiles := [], uploadCalls := 0, commentCalls := 0 }
    ∧ runCompareImgBBModel false false 50 300
        ⟨none, [], ["home.png"],
          ⟨fun _ => 0, fun _ => none, fun _ => 0, fun _ => [], fun _ => ""⟩,
          fun _ => false, false⟩
        (fun _ => "") (fun _ => false)
      = { outputs := [], failed := false, warnings := 1,
          comparedFiles := [], uploadCalls := 0, commentCalls := 0 }) :=
  ⟨rfl,
   C10_theorem ⟨false, false, false, false, false, 50, 300⟩
     ⟨none, false, false, false, false, [], [], fun _ => 0, fun _ => 0,
       fun _ => none, false, false, false, false, false⟩
     ⟨false, false, 50, 300, false, "u"⟩
     ⟨none, [], ["home.png"],
       ⟨fun _ => 0, fun _ => none, fun _ => 0, fun _ => [], fun _ => ""⟩,
       fun _ => false, false⟩
     false false 50 300
     ⟨none, [], ["home.png"],
       ⟨fun _ => 0, fun _ => none, fun _ => 0, fun _ => [], fun _ => ""⟩,
       fun _ => false, false⟩
     (fun _ => "") (fun _ => false) rfl rfl rfl⟩

/-- C4 counterexample: the ImgBB publisher performs no deduplication -
two composites with byte-identical content (equal hash) produce two
network uploads, not one. -/
theorem C4_counterexample :
    ((uploadToImgBBModel (fun _ => "https://i.ibb.co/a.png")
        (fun _ => false)
        [⟨"a-combined.png", "h.png", "", false, false⟩,
         ⟨"b-combined.png", "h.png", "", false, false⟩]).attempted = 2)
    ∧ ¬ ((uploadToImgBBModel (fun _ => "https://i.ibb.co/a.png")
        (fun _ => false)
        [⟨"a-combined.png", "h.png", "", false, false⟩,
         ⟨"b-combined.png", "h.png", "", false, false⟩]).attempted = 1) := by
  decide

/-- C4 (amended): hashing is content-addressed in every variant - equal
bytes give equal storage keys; the R2 publisher groups the queue by hash
and for two byte-identical composites performs exactly one upload, both
receiving the URL publicUrl/hash, with one upload per distinct key in
general (the key list of the grouping has no duplicates) and every
assigned URL content-addressed; the ImgBB publisher instead performs one
upload per composite with no deduplication. -/
theorem C4_theorem (hashHex : List Nat → String)
    (fileBytes : String → List Nat) (p q : String) (publicUrl : String)
    (fails : String → Bool) (i j : UploadEntry)
    (serverUrl : UploadEntry → String) (images : List UploadEntry)
    (hpq : fileBytes p = fileBytes q) (hij : i.hash = j.hash)
    (hok : fails i.hash = false) :
    (getFileHash hashHex fileBytes p = getFileHash hashHex fileBytes q)
    ∧ ((uploadToR2Model publicUrl fails [i, j]).attempted = 1)
    ∧ ((uploadToR2Model publicUrl fails [i, j]).urls
        = [(i, publicUrl ++ "/" ++ i.hash), (j, publicUrl ++ "/" ++ i.hash)])
    ∧ ((groupKeys (groupByHash images)).Nodup)
    ∧ (∀ pr ∈ (uploadToR2Model publicUrl fails images).urls,
        pr.2 = publicUrl ++ "/" ++ pr.1.hash)
    ∧ ((uploadToImgBBModel serverUrl (fun _ => false) images).attempted
        = images.length) :=
  ⟨by simp [getFileHash, hpq],
   (uploadToR2Model_pair_dedup publicUrl fails i j hij hok).1,
   (uploadToR2Model_pair_dedup publicUrl fails i j hij hok).2.1,
   groupKeys_foldl_nodup images [] (by simp [groupKeys]),
   uploadToR2Model_url_formula publicUrl fails images,
   uploadToImgBBModel_attempted_all serverUrl images⟩

/-- C4 witness: content addressing and dedup evaluated on two queued
composites sharing one hash. -/
theorem C4_witness :
    ((fun (_ : String) => ([] : List Nat)) "x.png"
        = (fun (_ : String) => ([] : List Nat)) "y.png")
    ∧ ((⟨"a-combined.png", "h.png", "", false, false⟩ :
        UploadEntry).hash
        = (⟨"b-combined.png", "h.png", "", false, false⟩ :
          UploadEntry).hash)
    ∧ ((fun (_ : String) => false)
        (⟨"a-combined.png", "h.png", "", false, false⟩ :
          UploadEntry).hash = false)
    ∧ ((getFileHash (fun _ => "k") (fun _ => []) "x.png"
        = getFileHash (fun _ => "k") (fun _ => []) "y.png")
      ∧ ((uploadToR2Model "https://cdn" (fun _ => false)
          [⟨"a-combined.png", "h.png", "", false, false⟩,
           ⟨"b-combined.png", "h.png", "", false, false⟩]).attempted = 1)
      ∧ ((uploadToR2Model "https://cdn" (fun _ => false)
          [⟨"a-combined.png", "h.png", "", false, false⟩,
           ⟨"b-combined.png", "h.png", "", false, false⟩]).urls
          = [(⟨"a-combined.png", "h.png", "", false, false⟩,
              "https://cdn" ++ "/"
                ++ (⟨"a-combined.png", "h.png", "", false, false⟩ :
                  UploadEntry).hash),
             (⟨"b-combined.png", "h.png", "", false, false⟩,
              "https://cdn" ++ "/"
                ++ (⟨"a-combined.png", "h.png", "", false, false⟩ :
                  UploadEntry).hash)])
      ∧ ((groupKeys (groupByHash
          [⟨"a-combined.png", "h.png", "", false, false⟩,
           ⟨"b-combined.png", "h.png", "", false, false⟩])).Nodup)
      ∧ (∀ pr ∈ (uploadToR2Model "https://cdn" (fun _ => false)
          [⟨"a-combined.png", "h.png", "", false, false⟩,
           ⟨"b-combined.png", "h.png", "", false, false⟩]).urls,
          pr.2 = "https://cdn" ++ "/" ++ pr.1.hash)
      ∧ ((uploadToImgBBModel (fun _ => "") (fun _ => false)
          [⟨"a-combined.png", "h.png", "", false, false⟩,
           ⟨"b-combined.png", "h.png", "", false, false⟩]).attempted
          = ([⟨"a-combined.png", "h.png", "", false, false⟩,
              ⟨"b-combined.png", "h.png", "", false, false⟩] :
              List UploadEntry).length)) :=
  ⟨rfl, rfl, rfl,
   C4_theorem (fun _ => "k") (fun _ => []) "x.png" "y.png" "https://cdn"
     (fun _ => false)
     ⟨"a-combined.png", "h.png", "", false, false⟩
     ⟨"b-combined.png", "h.png", "", false, false⟩
     (fun _ => "")
     [⟨"a-combined.png", "h.png", "", false, false⟩,
      ⟨"b-combined.png", "h.png", "", false, false⟩]
     rfl rfl rfl⟩

/-- C5: in each pipeline variant the process fails exactly when a fatal
step threw (dependency install, test command, empty candidate artifact,
artifact upload) or changes were detected with fail-on-changes enabled;
the recoverable warnings - failed comment post, failed screenshot commit,
failed base fetch, failed git status - never change the exit status, and a
missing baseline leaves the fused run's exit determined by the fatal steps
alone. -/
theorem C5_theorem (inp : FusedInputs) (o : FusedOracle) (n : Nat)
    (b1 b2 b3 b4 : Bool) (inp2 : CompareRunInputs) (o2 : CompareRunOracle)
    (n2 : Nat) (b5 : Bool) (pc foc : Bool) (cp cm : Int)
    (o3 : CompareRunOracle) (n3 : Nat) (su : UploadEntry → String)
    (ef : UploadEntry → Bool) (b6 : Bool)
    (hpr : o.prNumber = some n) (hpr2 : o2.prNumber = some n2)
    (hpr3 : o3.prNumber = some n3) :
    ((runFusedModel inp o).failed = specExitFused inp o)
    ∧ ((runFusedModel inp
          { o with
            commentFails := b1,
            commitFails := b2,
            fetchBaseThrows := b3,
            gitStatusThrows := b4 }).failed
        = (runFusedModel inp o).failed)
    ∧ (o.hasBase = false → specExitFused inp o
        = ((inp.installDeps && o.installFails) || o.testsFail))
    ∧ ((runCompareR2Model inp2 o2).failed = specExitR2 inp2 o2)
    ∧ ((runCompareR2Model inp2 { o2 with commentFails := b5 }).failed
        = (runCompareR2Model inp2 o2).failed)
    ∧ ((runCompareImgBBModel pc foc cp cm o3 su ef).failed
        = specExitImgBB pc foc cp cm o3 su ef)
    ∧ ((runCompareImgBBModel pc foc cp cm
          { o3 with commentFails := b6 } su ef).failed
        = (runCompareImgBBModel pc foc cp cm o3 su ef).failed) :=
  ⟨runFusedModel_failed_char inp o n hpr,
   runFusedModel_failed_warning_invariant inp o b1 b2 b3 b4,
   specExitFused_no_base inp o,
   runCompareR2Model_failed_char inp2 o2 n2 hpr2,
   runCompareR2Model_failed_comment_invariant inp2 o2 b5,
   runCompareImgBBModel_failed_char pc foc cp cm o3 su ef n3 hpr3,
   runCompareImgBBModel_failed_comment_invariant pc foc cp cm o3 su ef b6⟩

/-- Concrete fused configuration used by the C5 witness. -/
def wFusedInputs : FusedInputs := ⟨false, false, false, false, false, 50, 300⟩

/-- Concrete fused oracle used by the C5 witness (a pull request with no
base screenshots and all collaborators succeeding). -/
def wFusedOracle : FusedOracle :=
  ⟨some 1, false, false, false, false, [], [], fun _ => 0, fun _ => 0,
    fun _ => none, false, false, false, false, false⟩

/-- Concrete compare configuration used by the C5 witness. -/
def wCmpInputs : CompareRunInputs := ⟨false, false, 50, 300, false, "u"⟩

/-- Concrete compare oracle used by the C5 witness. -/
def wCmpOracle : CompareRunOracle :=
  ⟨some 1, [], ["home.png"],
    ⟨fun _ => 0, fun _ => none, fun _ => 0, fun _ => [], fun _ => ""⟩,
    fun _ => false, false⟩

/-- C5 witness: the exit-status characterization evaluated on concrete
inputs and oracles for all three variants. -/
theorem C5_witness :
    wFusedOracle.prNumber = some 1
    ∧ wCmpOracle.prNumber = some 1
    ∧ wCmpOracle.prNumber = some 1
    ∧ (((runFusedModel wFusedInputs wFusedOracle).failed
          = specExitFused wFusedInputs wFusedOracle)
      ∧ ((runFusedModel wFusedInputs
            { wFusedOracle with
              commentFails := false,
              commitFails := false,
              fetchBaseThrows := false,
              gitStatusThrows := false }).failed
          = (runFusedModel wFusedInputs wFusedOracle).failed)
      ∧ (wFusedOracle.hasBase = false
          → specExitFused wFusedInputs wFusedOracle
            = ((wFusedInputs.installDeps && wFusedOracle.installFails)
              || wFusedOracle.testsFail))
      ∧ ((runCompareR2Model wCmpInputs wCmpOracle).failed
          = specExitR2 wCmpInputs wCmpOracle)
      ∧ ((runCompareR2Model wCmpInputs
            { wCmpOracle with commentFails := false }).failed
          = (runCompareR2Model wCmpInputs wCmpOracle).failed)
      ∧ ((runCompareImgBBModel false false 50 300 wCmpOracle (fun _ => "")
            (fun _ => false)).failed
          = specExitImgBB false false 50 300 wCmpOracle (fun _ => "")
              (fun _ => false))
      ∧ ((runCompareImgBBModel false false 50 300
            { wCmpOracle with commentFails := false } (fun _ => "")
            (fun _ => false)).failed
          = (runCompareImgBBModel false false 50 300 wCmpOracle
              (fun _ => "") (fun _ => false)).failed)) :=
  ⟨rfl, rfl, rfl,
   C5_theorem wFusedInputs wFusedOracle 1 false false false false
     wCmpInputs wCmpOracle 1 false false false 50 300 wCmpOracle 1
     (fun _ => "") (fun _ => false) false rfl rfl rfl⟩

/-- C6 counterexample: in the ImgBB publisher a failing first upload
aborts the loop - with two queued images of which the first fails, only
one upload is attempted (not both), and the surfaced error is that item's
error rather than an aggregate count. -/
theorem C6_counterexample :
    ((uploadToImgBBModel (fun _ => "https://i.ibb.co/a.png")
        (fun i => i.path == "a-combined.png")
        [⟨"a-combined.png", "h1.png", "", false, false⟩,
         ⟨"b-combined.png", "h2.png", "", false, false⟩]).attempted = 1)
    ∧ (1 : Nat) ≠ 2
    ∧ ((uploadToImgBBModel (fun _ => "https://i.ibb.co/a.png")
        (fun i => i.path == "a-combined.png")
        [⟨"a-combined.png", "h1.png", "", false, false⟩,
         ⟨"b-combined.png", "h2.png", "", false, false⟩]).error
        = some "Failed to upload a-combined.png to ImgBB") := by
  decide

/-- C6 (amended): the R2 publisher attempts every one of its N uploads
(one per distinct hash, Promise.allSettled) and, when a nonempty subset
fails, escalates with the single aggregate error naming the failed count
out of N; the ImgBB publisher instead rethrows at its first failing
upload, never attempting the images after it and surfacing only that
item's error. -/
theorem C6_theorem (u : String) (f : String → Bool)
    (images : List UploadEntry) (serverUrl : UploadEntry → String)
    (entryFails : UploadEntry → Bool) (pre post : List UploadEntry)
    (img : UploadEntry)
    (hfail : ((groupByHash images).filter (fun g => f g.1)).length > 0)
    (hpre : ∀ i ∈ pre, entryFails i = false)
    (himg : entryFails img = true) :
    ((uploadToR2Model u f images).attempted = (groupByHash images).length)
    ∧ ((uploadToR2Model u f images).error
        = some (toString
              ((groupByHash images).filter (fun g => f g.1)).length
            ++ " of " ++ toString (groupByHash images).length
            ++ " uploads failed"))
    ∧ (uploadToImgBBModel serverUrl entryFails (pre ++ img :: post)
        = { attempted := pre.length + 1,
            urls := pre.map (fun i => (i, serverUrl i)),
            error := some ("Failed to upload " ++ img.path
              ++ " to ImgBB") }) :=
  ⟨uploadToR2Model_attempted_eq u f images,
   uploadToR2Model_error_message u f images hfail,
   uploadToImgBBModel_abort serverUrl entryFails pre post img hpre himg⟩

/-- C6 witness: the aggregate-versus-abort behavior evaluated on one
failing R2 group and an ImgBB queue whose first image fails. -/
theorem C6_witness :
    (((groupByHash [⟨"a-combined.png", "h.png", "", false, false⟩]).filter
        (fun g => (fun _ => true) g.1)).length > 0)
    ∧ (∀ i ∈ ([] : List UploadEntry), (fun _ => true) i = false)
    ∧ ((fun _ => true)
        (⟨"a-combined.png", "h.png", "", false, false⟩ : UploadEntry)
        = true)
    ∧ (((uploadToR2Model "https://cdn" (fun _ => true)
          [⟨"a-combined.png", "h.png", "", false, false⟩]).attempted
        = (groupByHash
            [⟨"a-combined.png", "h.png", "", false, false⟩]).length)
      ∧ ((uploadToR2Model "https://cdn" (fun _ => true)
          [⟨"a-combined.png", "h.png", "", false, false⟩]).error
          = some (toString ((groupByHash
                [⟨"a-combined.png", "h.png", "", false, false⟩]).filter
                (fun g => (fun _ => true) g.1)).length
              ++ " of "
              ++ toString (groupByHash
                [⟨"a-combined.png", "h.png", "", false, false⟩]).length
              ++ " uploads failed"))
      ∧ (uploadToImgBBModel (fun _ => "") (fun _ => true)
          ([] ++ (⟨"a-combined.png", "h.png", "", false, false⟩ :
            UploadEntry) :: [])
          = { attempted := ([] : List UploadEntry).length + 1,
              urls := ([] : List UploadEntry).map
                (fun i => (i, (fun _ => "") i)),
              error := some ("Failed to upload "
                ++ (⟨"a-combined.png", "h.png", "", false, false⟩ :
                  UploadEntry).path ++ " to ImgBB") })) :=
  ⟨by decide, by simp, rfl,
   C6_theorem "https://cdn" (fun _ => true)
     [⟨"a-combined.png", "h.png", "", false, false⟩] (fun _ => "")
     (fun _ => true) [] []
     ⟨"a-combined.png", "h.png", "", false, false⟩
     (by decide) (by simp) rfl⟩

/-- C7 counterexample: a configured tolerance of 0 - inside the documented
0.0 to 1.0 range - is not passed through: parseFloat yields 0, the JS
or-default replaces it with 0.1, so the tool receives 0.1, not the
configured 0. -/
theorem C7_counterexample :
    jsParseFloat "0" = some 0
    ∧ ((0 : ℚ) ≤ 0 ∧ (0 : ℚ) ≤ 1)
    ∧ diffThresholdOf "0" = 1 / 10
    ∧ (1 / 10 : ℚ) ≠ 0 := by
  have h : parseFloatParts "0" = some (false, 0, 0, 0) := by decide
  refine ⟨?_, ⟨le_refl _, by norm_num⟩, ?_, by norm_num⟩
  · simp [jsParseFloat, h, ratOfParts]
  · simp [diffThresholdOf, jsParseFloat, h, ratOfParts]

/-- C7 (amended): a configured tolerance whose parseFloat value is
nonzero is passed to the tool's threshold argument unmodified, and the
default 0.1 is used when the input is unset or unparseable (parseFloat
NaN) - but also when the configured value parses to 0. -/
theorem C7_theorem (raw : String) (x : ℚ) (b c d : String)
    (hparse : jsParseFloat raw = some x) (hx : x ≠ 0) :
    diffThresholdOf raw = x
    ∧ (odiffCallOfInputs raw b c d).threshold = diffThresholdOf raw
    ∧ diffThresholdOf "" = 1 / 10
    ∧ diffThresholdOf "0" = 1 / 10 := by
  refine ⟨?_, rfl, ?_, ?_⟩
  · simp [diffThresholdOf, hparse, hx]
  · have h : parseFloatParts "" = none := by decide
    simp [diffThresholdOf, jsParseFloat, h]
  · have h : parseFloatParts "0" = some (false, 0, 0, 0) := by decide
    simp [diffThresholdOf, jsParseFloat, h, ratOfParts]

/-- C7 witness: the threshold pass-through evaluated at the configured
string 0.25. -/
theorem C7_witness :
    jsParseFloat "0.25" = some (1 / 4)
    ∧ (1 / 4 : ℚ) ≠ 0
    ∧ (diffThresholdOf "0.25" = 1 / 4
      ∧ (odiffCallOfInputs "0.25" "base.png" "new.png" "diff.png").threshold
          = diffThresholdOf "0.25"
      ∧ diffThresholdOf "" = 1 / 10
      ∧ diffThresholdOf "0" = 1 / 10) := by
  have hp : parseFloatParts "0.25" = some (false, 0, 25, 2) := by decide
  have h : jsParseFloat "0.25" = some (1 / 4) := by
    simp [jsParseFloat, hp, ratOfParts]
    norm_num
  exact ⟨h, by norm_num,
    C7_theorem "0.25" (1 / 4) "base.png" "new.png" "diff.png" h
      (by norm_num)⟩

/-- C8: a screenshot whose diff invocation exits 22 but whose bounding-box
output fails to parse produces no crop, no composite and no upload entry -
the per-file step changes nothing but the flag - while the aggregate
diffs-found flag of the whole comparison phase still ends true; this holds
in the R2 compare loop and in the fused loop. -/
theorem C8_theorem (p m : Int) (g : Bool) (o : CompareOracle)
    (basePngs prPngs : List String) (st : CompareState) (file : String)
    (ih : String → Int) (bn : List String) (ec : String → Nat)
    (bb : String → Option Bbox) (st2 : FusedCompareState) (file2 : String)
    (hf : file ∈ prPngs) (hb : basePngs.contains file = true)
    (he : o.exitCode file = 22) (hbb : o.bbox file = none)
    (hg2 : fusedShouldProcess file2 = true) (hb2 : bn.contains file2 = true)
    (he2 : ec file2 = 22) (hbb2 : bb file2 = none) :
    (compareStepR2 p m g o basePngs st file = { st with hasDiffs := true })
    ∧ ((comparePhaseR2 p m g o basePngs prPngs).hasDiffs = true)
    ∧ (fusedCompareStep p m ih bn ec bb st2 file2
        = { st2 with hasDiffs := true }) :=
  ⟨compareStepR2_parse_failure p m g o basePngs st file hb he hbb,
   comparePhaseR2_flag_of_changed p m g o basePngs prPngs file hf hb he,
   fusedCompareStep_parse_failure p m ih bn ec bb st2 file2 hg2 hb2 he2
     hbb2⟩

/-- C8 witness: the parse-failure behavior evaluated on a single shared
screenshot whose diff reports changes but whose bounding box does not
parse. -/
theorem C8_witness :
    "home.png" ∈ (["home.png"] : List String)
    ∧ (["home.png"] : List String).contains "home.png" = true
    ∧ (fun _ => (22 : Nat)) "home.png" = 22
    ∧ (fun _ => (none : Option Bbox)) "home.png" = none
    ∧ fusedShouldProcess "home.png" = true
    ∧ ((compareStepR2 50 300 false
          ⟨fun _ => 22, fun _ => none, fun _ => 0, fun _ => [], fun _ => ""⟩
          ["home.png"] ⟨false, [], [], []⟩ "home.png"
        = { (⟨false, [], [], []⟩ : CompareState) with hasDiffs := true })
      ∧ ((comparePhaseR2 50 300 false
          ⟨fun _ => 22, fun _ => none, fun _ => 0, fun _ => [], fun _ => ""⟩
          ["home.png"] ["home.png"]).hasDiffs = true)
      ∧ (fusedCompareStep 50 300 (fun _ => 800) ["home.png"] (fun _ => 22)
          (fun _ => none) ⟨false, [], []⟩ "home.png"
        = { (⟨false, [], []⟩ : FusedCompareState) with
            hasDiffs := true })) :=
  ⟨by decide, by decide, rfl, rfl, by decide,
   C8_theorem 50 300 false
     ⟨fun _ => 22, fun _ => none, fun _ => 0, fun _ => [], fun _ => ""⟩
     ["home.png"] ["home.png"] ⟨false, [], [], []⟩ "home.png"
     (fun _ => 800) ["home.png"] (fun _ => 22) (fun _ => none)
     ⟨false, [], []⟩ "home.png"
     (by decide) (by decide) rfl rfl (by decide) (by decide) rfl rfl⟩

end VRA
